import Mathlib

/-!
Verification development for the Rubik's cube dual-camera detection pipeline
(`src/main.cpp`).  The definitions below are shallow embeddings of the C++
functions: pure functions become Lean functions; the global label vectors,
the HSV lookup table and the captured frames become explicit arguments;
`cv::Mat` frames are modelled as an optional record (a `none` frame is an
empty `cv::Mat`); the solver's structural pre-check (`face::to_cubie` plus
`cubie::check`, which live in the external rob-twophase engine) is an
abstract boolean parameter of the orientation-resolution loop.
-/

namespace RubiksCube

/-- Embedding of `colorToFace` from `src/main.cpp`: convert a detected color character to
a canonical face character (`switch` on the color, default `'N'`). -/
def colorToFace (color : Char) : Char :=
  if color = 'R' then 'F'        -- Red -> Front
  else if color = 'B' then 'R'   -- Blue -> Right
  else if color = 'W' then 'U'   -- White -> Up
  else if color = 'O' then 'B'   -- Orange -> Back
  else if color = 'G' then 'L'   -- Green -> Left
  else if color = 'Y' then 'D'   -- Yellow -> Down
  else if color = 'N' then 'N'   -- Unknown stays unknown
  else 'N'

/-- Embedding of `CubeOrientation` from `src/main.cpp`: `cam1_faces[0..2]` are the Up,
Right and Front slots, `cam2_faces[0..2]` the Down, Left and Back slots;
the constructor takes them in the order `(up, right, front, down, left, back)`. -/
structure CubeOrientation where
  up : Char
  right : Char
  front : Char
  down : Char
  left : Char
  back : Char
deriving DecidableEq

/-- Embedding of `generateAllOrientations` from `src/main.cpp`: the hardcoded table of 24
orientation entries, in source order. -/
def generateAllOrientations : List CubeOrientation :=
  [ -- White (U) up orientations
    ⟨'U', 'R', 'F', 'D', 'L', 'B'⟩, -- Standard
    ⟨'U', 'F', 'L', 'D', 'B', 'R'⟩,
    ⟨'U', 'L', 'B', 'D', 'R', 'F'⟩,
    ⟨'U', 'B', 'R', 'D', 'F', 'L'⟩,
    -- Yellow (D) up orientations
    ⟨'D', 'R', 'B', 'U', 'L', 'F'⟩,
    ⟨'D', 'B', 'L', 'U', 'F', 'R'⟩,
    ⟨'D', 'L', 'F', 'U', 'R', 'B'⟩,
    ⟨'D', 'F', 'R', 'U', 'B', 'L'⟩,
    -- Red (R) up orientations
    ⟨'R', 'U', 'F', 'L', 'B', 'D'⟩,
    ⟨'R', 'F', 'D', 'L', 'U', 'B'⟩,
    ⟨'R', 'D', 'B', 'L', 'F', 'U'⟩,
    ⟨'R', 'B', 'U', 'L', 'D', 'F'⟩,
    -- Orange (L) up orientations
    ⟨'L', 'U', 'B', 'R', 'F', 'D'⟩,
    ⟨'L', 'B', 'D', 'R', 'U', 'F'⟩,
    ⟨'L', 'D', 'F', 'R', 'B', 'U'⟩,
    ⟨'L', 'F', 'U', 'R', 'D', 'B'⟩,
    -- Green (F) up orientations
    ⟨'F', 'U', 'R', 'B', 'L', 'D'⟩,
    ⟨'F', 'R', 'D', 'B', 'U', 'L'⟩,
    ⟨'F', 'D', 'L', 'B', 'R', 'U'⟩,
    ⟨'F', 'L', 'U', 'B', 'D', 'R'⟩,
    -- Blue (B) up orientations
    ⟨'B', 'U', 'L', 'F', 'R', 'D'⟩,
    ⟨'B', 'L', 'D', 'F', 'U', 'R'⟩,
    ⟨'B', 'D', 'R', 'F', 'L', 'U'⟩,
    ⟨'B', 'R', 'U', 'F', 'D', 'L'⟩ ]

/-- The `face_indices` map from `generateFaceString` in `src/main.cpp`:
the eight non-center positions of each face in the 54-character state
(centers 4, 13, 22, 31, 40, 49 skipped).  A key outside the six face
letters yields the `std::map` default, an empty vector. -/
def face_indices (face : Char) : List Nat :=
  if face = 'U' then [0, 1, 2, 3, 5, 6, 7, 8]
  else if face = 'R' then [9, 10, 11, 12, 14, 15, 16, 17]
  else if face = 'F' then [18, 19, 20, 21, 23, 24, 25, 26]
  else if face = 'D' then [27, 28, 29, 30, 32, 33, 34, 35]
  else if face = 'L' then [36, 37, 38, 39, 41, 42, 43, 44]
  else if face = 'B' then [45, 46, 47, 48, 50, 51, 52, 53]
  else []

/-- One pass of the per-camera-face loop body from `generateFaceString` in
`src/main.cpp`: for `i = 0..7`, if `camFace * 8 + i` is within the label
vector, write `colorToFace(labels[camFace * 8 + i])` at `indices[i]` of the
state. -/
def fillFace (labels : List Char) (camFace : Nat) (target : Char)
    (state : List Char) : List Char :=
  (List.range 8).foldl
    (fun st i =>
      if camFace * 8 + i < labels.length then
        st.set ((face_indices target).getD i 0)
          (colorToFace (labels.getD (camFace * 8 + i) 'N'))
      else st)
    state

/-- Embedding of `generateFaceString(orientation)` from `src/main.cpp`, with the global
label vectors `glob_colors_cam_1` / `glob_colors_cam_2` made explicit
arguments.  Starts from 54 copies of `'N'`, fills the three camera-1 faces,
then the three camera-2 faces, then overwrites the six center positions
with the orientation's face letters. -/
def generateFaceString (ori : CubeOrientation) (c1 c2 : List Char) : List Char :=
  let s0 := List.replicate 54 'N'
  let s1 := fillFace c1 0 ori.up s0
  let s2 := fillFace c1 1 ori.right s1
  let s3 := fillFace c1 2 ori.front s2
  let s4 := fillFace c2 0 ori.down s3
  let s5 := fillFace c2 1 ori.left s4
  let s6 := fillFace c2 2 ori.back s5
  ((((((s6.set 4 ori.up).set 13 ori.right).set 22 ori.front).set
      31 ori.down).set 40 ori.left).set 49 ori.back)

/-- The default orientation built by the zero-argument overload of
`generateFaceString` in `src/main.cpp`. -/
def default_orientation : CubeOrientation := ⟨'U', 'R', 'F', 'D', 'L', 'B'⟩

/-- The canonical solved-cube string
`UUUUUUUUURRRRRRRRRFFFFFFFFFDDDDDDDDDLLLLLLLLLBBBBBBBBB` as a character list. -/
def solvedCubeString : List Char :=
  List.replicate 9 'U' ++ List.replicate 9 'R' ++ List.replicate 9 'F' ++
  List.replicate 9 'D' ++ List.replicate 9 'L' ++ List.replicate 9 'B'

/-- The six canonical face letters, the `expected_faces` array of
`validateCube` in `src/main.cpp`. -/
def expected_faces : List Char := ['U', 'R', 'F', 'D', 'L', 'B']

/-- The `face_counts` map built by `validateCube` in `src/main.cpp`:
`colorToFace` of every sample of both cameras is counted, then one
hardcoded center is added for each of the six canonical face letters. -/
def faceCounts (c1 c2 : List Char) (f : Char) : Nat :=
  ((c1 ++ c2).map colorToFace).count f + (if f ∈ expected_faces then 1 else 0)

/-- Embedding of `validateCube` from `src/main.cpp`, with the global label vectors made
explicit.  `is_valid` starts `true` and is cleared whenever a face total
differs from 9; a positive `Unknown` count also clears it. -/
def validateCube (c1 c2 : List Char) : Bool :=
  let is_valid := expected_faces.foldl
    (fun acc f => if faceCounts c1 c2 f = 9 then acc else false) true
  let unknown_count := faceCounts c1 c2 'N'
  if unknown_count > 0 then false else is_valid

/-- Modelled from the spec: the opposite face of each canonical face letter
("opposite faces are assigned to opposite camera slots: up/down,
right/left, front/back").  Used only to state what a valid rotation of the
6-face labeling must satisfy; not part of the source. -/
def oppositeFace (f : Char) : Char :=
  if f = 'U' then 'D'
  else if f = 'D' then 'U'
  else if f = 'R' then 'L'
  else if f = 'L' then 'R'
  else if f = 'F' then 'B'
  else if f = 'B' then 'F'
  else f

/-- Modelled from the spec: a `CubeOrientation` can only be an element of
the cube's rotation group if each camera-2 slot holds the face opposite to
the corresponding camera-1 slot (down opposite up, left opposite right,
back opposite front).  This is the necessary condition named by the claim. -/
def oppositeSlotsRespected (o : CubeOrientation) : Bool :=
  o.down = oppositeFace o.up && o.left = oppositeFace o.right &&
    o.back = oppositeFace o.front

/-- One parsed line of the color calibration file read by
`load_lut_from_file` in `src/main.cpp`:
`<color> <h_min> <h_max> <s_min> <s_max> <v_min> <v_max>` (integers). -/
structure LutRule where
  color : Char
  h_min : Int
  h_max : Int
  s_min : Int
  s_max : Int
  v_min : Int
  v_max : Int
deriving DecidableEq

/-- The per-hue range test from `load_lut_from_file` in `src/main.cpp`:
`red_wrap = (color == 'R' && h_min > h_max)` makes the hue test the
disjunction `h >= h_min || h <= h_max`; otherwise it is the conjunction. -/
def h_in_range (r : LutRule) (h : Nat) : Bool :=
  if r.color = 'R' ∧ r.h_min > r.h_max then
    decide ((h : Int) ≥ r.h_min ∨ (h : Int) ≤ r.h_max)
  else
    decide (r.h_min ≤ (h : Int) ∧ (h : Int) ≤ r.h_max)

/-- The triple loop of `load_lut_from_file` in `src/main.cpp` for one rule:
a bucket `(h, s, v)` is written with the rule's color exactly when
`h < 180`, the hue test passes, and `s` and `v` lie inside the rule's
ranges. -/
def ruleCovers (r : LutRule) (h s v : Nat) : Bool :=
  decide (h < 180) && h_in_range r h &&
    decide (r.s_min ≤ (s : Int) ∧ (s : Int) ≤ r.s_max) &&
    decide (r.v_min ≤ (v : Int) ∧ (v : Int) ≤ r.v_max)

/-- Applying one calibration rule to the lookup table: covered buckets are
overwritten with the rule's color, all others keep their previous value. -/
def applyRule (lut : Nat → Nat → Nat → Char) (r : LutRule) :
    Nat → Nat → Nat → Char :=
  fun h s v => if ruleCovers r h s v then r.color else lut h s v

/-- Embedding of `init_lut` from `src/main.cpp`: the hardcoded HSV thresholds used when
no calibration file can be opened. -/
def init_lut : Nat → Nat → Nat → Char := fun h s v =>
  if s ≤ 50 ∧ v ≥ 150 then 'W'
  else if ((h ≥ 0 ∧ h ≤ 8) ∨ (h ≥ 172 ∧ h ≤ 179)) ∧ s ≥ 80 ∧ v ≥ 80 then 'R'
  else if h ≥ 9 ∧ h ≤ 20 ∧ s ≥ 100 ∧ v ≥ 100 then 'O'
  else if h ≥ 21 ∧ h ≤ 35 ∧ s ≥ 80 ∧ v ≥ 120 then 'Y'
  else if h ≥ 45 ∧ h ≤ 75 ∧ s ≥ 60 ∧ v ≥ 60 then 'G'
  else if h ≥ 100 ∧ h ≤ 125 ∧ s ≥ 80 ∧ v ≥ 80 then 'B'
  else 'N'

/-- Embedding of `load_lut_from_file` from `src/main.cpp`.  `none` models a file that
cannot be opened: the function falls back to the hardcoded `init_lut`.
`some rules` models a successfully opened file whose lines parsed to
`rules`: the table is first `memset` to `'N'` and then the rules are
applied in file order, later rules overwriting earlier ones per bucket. -/
def load_lut_from_file : Option (List LutRule) → (Nat → Nat → Nat → Char)
  | none => init_lut
  | some rules => rules.foldl applyRule (fun _ _ _ => 'N')

/-- An HSV pixel `(h, s, v)`. -/
abbrev HsvPixel := Nat × Nat × Nat

/-- Embedding of `find_color_lut` from `src/main.cpp`: index the lookup table with the
pixel's `h`, `s`, `v` components. -/
def find_color_lut (lut : Nat → Nat → Nat → Char) (p : HsvPixel) : Char :=
  lut p.1 p.2.1 p.2.2

/-- A non-empty captured frame after `cvtColor(..., COLOR_BGR2HSV)`:
its dimensions and its HSV pixel at `(row, col)`. -/
structure FrameData where
  cols : Nat
  rows : Nat
  pixel : Nat → Nat → HsvPixel

/-- The body of `detect_cam_1` / `detect_cam_2` from `src/main.cpp`, with
the globals made explicit: `lut` is `color_lut`, `frame` the captured frame
(`none` = `Mat::empty()`), `points` the calibrated point list and `prev`
the current contents of the global label vector.  An empty frame returns
early, leaving the label vector untouched.  Otherwise, for each point
index, an in-bounds point is classified through the lookup table and an
out-of-bounds point yields `'N'`, written at that index of the vector. -/
def detect_cam (lut : Nat → Nat → Nat → Char) (frame : Option FrameData)
    (points : List (Int × Int)) (prev : List Char) : List Char :=
  match frame with
  | none => prev
  | some f =>
    (List.range points.length).foldl
      (fun acc i =>
        let p := points.getD i (0, 0)
        acc.set i
          (if 0 ≤ p.1 ∧ p.1 < (f.cols : Int) ∧ 0 ≤ p.2 ∧ p.2 < (f.rows : Int)
           then find_color_lut lut (f.pixel p.2.toNat p.1.toNat)
           else 'N'))
      prev

/-- One camera's half of `load_position` from `src/main.cpp`.  The file is
modelled as its successfully-extracted integer tokens (extraction stops
delivering values at end-of-file or at the first malformed token; a failed
`operator>>` stores 0, so reads past `tokens` yield 0).  The loop
unconditionally appends 24 points. -/
def load_position (tokens : List Int) : List (Int × Int) :=
  (List.range 24).map fun i => (tokens.getD (2 * i) 0, tokens.getD (2 * i + 1) 0)

/-- Result of `solveWithMultipleOrientations` in `src/main.cpp`, abstracted
over the external solver: either the first orientation whose assembled
state passed the structural pre-check (with that state), or the diagnostic
failure when all 24 orientations failed. -/
inductive SolveResult where
  | solution : CubeOrientation → List Char → SolveResult
  | noValidOrientation : SolveResult
deriving DecidableEq

/-- The loop of `solveWithMultipleOrientations` from `src/main.cpp`.
`precheck` abstracts the external solver's structural pre-check
(`face::to_cubie` succeeding and `cubie::check` returning 0).  For each
orientation in order the state is assembled and the pre-check is run; a
failing candidate is skipped, the first passing candidate stops the loop
and is handed to the solver.  Besides the result, the number of pre-check
invocations and the number of solver invocations are returned. -/
def resolveLoop (precheck : List Char → Bool) (c1 c2 : List Char) :
    List CubeOrientation → SolveResult × Nat × Nat
  | [] => (SolveResult.noValidOrientation, 0, 0)
  | o :: rest =>
    let s := generateFaceString o c1 c2
    if precheck s then (SolveResult.solution o s, 1, 1)
    else
      let r := resolveLoop precheck c1 c2 rest
      (r.1, r.2.1 + 1, r.2.2)

/-- Embedding of `solveWithMultipleOrientations` from `src/main.cpp`: run the resolve
loop over the full orientation catalog. -/
def solveWithMultipleOrientations (precheck : List Char → Bool)
    (c1 c2 : List Char) : SolveResult × Nat × Nat :=
  resolveLoop precheck c1 c2 generateAllOrientations

/-! ## Helper lemmas -/

theorem foldl_length_invariant {β : Type} (f : List Char → β → List Char)
    (hf : ∀ st b, (f st b).length = st.length) :
    ∀ (xs : List β) (st : List Char), (xs.foldl f st).length = st.length := by
  intro xs
  induction xs with
  | nil => intro st; rfl
  | cons x xs ih =>
    intro st
    simp only [List.foldl_cons]
    rw [ih, hf]

theorem foldl_mem_invariant {β : Type} (P : Char → Prop)
    (f : List Char → β → List Char)
    (hf : ∀ st b ch, ch ∈ f st b → ch ∈ st ∨ P ch) :
    ∀ (xs : List β) (st : List Char) (ch : Char),
      ch ∈ xs.foldl f st → ch ∈ st ∨ P ch := by
  intro xs
  induction xs with
  | nil => intro st ch h; exact Or.inl h
  | cons x xs ih =>
    intro st ch h
    simp only [List.foldl_cons] at h
    rcases ih (f st x) ch h with h' | h'
    · exact hf st x ch h'
    · exact Or.inr h'

theorem fillFace_length (labels : List Char) (camFace : Nat) (target : Char)
    (state : List Char) :
    (fillFace labels camFace target state).length = state.length := by
  apply foldl_length_invariant
  intro st i
  split
  · exact List.length_set ..
  · rfl

/-- Every face character `colorToFace` can emit. -/
def allowedStateChars : List Char := ['U', 'R', 'F', 'D', 'L', 'B', 'N']

theorem colorToFace_mem_allowed (c : Char) :
    colorToFace c ∈ allowedStateChars := by
  unfold colorToFace
  split_ifs <;> decide

theorem fillFace_mem (labels : List Char) (camFace : Nat) (target : Char)
    (state : List Char) (ch : Char) (h : ch ∈ fillFace labels camFace target state) :
    ch ∈ state ∨ ch ∈ allowedStateChars := by
  refine foldl_mem_invariant _ _ ?_ _ _ _ h
  intro st i ch' h'
  split at h'
  · rcases List.mem_or_eq_of_mem_set h' with h'' | rfl
    · exact Or.inl h''
    · exact Or.inr (colorToFace_mem_allowed _)
  · exact Or.inl h'

theorem generateFaceString_length (ori : CubeOrientation) (c1 c2 : List Char) :
    (generateFaceString ori c1 c2).length = 54 := by
  unfold generateFaceString
  simp only [List.length_set, fillFace_length, List.length_replicate]

theorem generateFaceString_mem (ori : CubeOrientation) (c1 c2 : List Char)
    (ch : Char) (h : ch ∈ generateFaceString ori c1 c2) :
    ch ∈ allowedStateChars ∨ ch = ori.up ∨ ch = ori.right ∨ ch = ori.front ∨
      ch = ori.down ∨ ch = ori.left ∨ ch = ori.back := by
  unfold generateFaceString at h
  rcases List.mem_or_eq_of_mem_set h with h | rfl
  rotate_left
  · exact Or.inr (by tauto)
  rcases List.mem_or_eq_of_mem_set h with h | rfl
  rotate_left
  · exact Or.inr (by tauto)
  rcases List.mem_or_eq_of_mem_set h with h | rfl
  rotate_left
  · exact Or.inr (by tauto)
  rcases List.mem_or_eq_of_mem_set h with h | rfl
  rotate_left
  · exact Or.inr (by tauto)
  rcases List.mem_or_eq_of_mem_set h with h | rfl
  rotate_left
  · exact Or.inr (by tauto)
  rcases List.mem_or_eq_of_mem_set h with h | rfl
  rotate_left
  · exact Or.inr (by tauto)
  rcases fillFace_mem _ _ _ _ _ h with h | h
  rotate_left
  · exact Or.inl h
  rcases fillFace_mem _ _ _ _ _ h with h | h
  rotate_left
  · exact Or.inl h
  rcases fillFace_mem _ _ _ _ _ h with h | h
  rotate_left
  · exact Or.inl h
  rcases fillFace_mem _ _ _ _ _ h with h | h
  rotate_left
  · exact Or.inl h
  rcases fillFace_mem _ _ _ _ _ h with h | h
  rotate_left
  · exact Or.inl h
  rcases fillFace_mem _ _ _ _ _ h with h | h
  rotate_left
  · exact Or.inl h
  exact Or.inl (by rw [List.eq_of_mem_replicate h]; decide)

theorem generateFaceString_centers (ori : CubeOrientation) (c1 c2 : List Char) :
    (generateFaceString ori c1 c2)[4]? = some ori.up ∧
    (generateFaceString ori c1 c2)[13]? = some ori.right ∧
    (generateFaceString ori c1 c2)[22]? = some ori.front ∧
    (generateFaceString ori c1 c2)[31]? = some ori.down ∧
    (generateFaceString ori c1 c2)[40]? = some ori.left ∧
    (generateFaceString ori c1 c2)[49]? = some ori.back := by
  simp only [generateFaceString, List.getElem?_set, List.length_set,
    fillFace_length, List.length_replicate]
  norm_num

theorem catalog_letters {ori : CubeOrientation}
    (h : ori ∈ generateAllOrientations) :
    ori.up ∈ expected_faces ∧ ori.right ∈ expected_faces ∧
    ori.front ∈ expected_faces ∧ ori.down ∈ expected_faces ∧
    ori.left ∈ expected_faces ∧ ori.back ∈ expected_faces := by
  fin_cases h <;> decide

/-! ## Claim theorems -/

/-- Claim C1, counterexample: assembling under the identity orientation from
camera-1 labels Red×8 ++ Green×8 ++ White×8 and camera-2 labels
Orange×8 ++ Blue×8 ++ Yellow×8 does NOT produce the canonical solved-cube
string (it produces `FFFFUFFFFLLLLRLLLLUUUUFUUUUBBBBDBBBBRRRRLRRRRDDDDBDDDD`,
because `colorToFace` maps Red to Front, Green to Left and White to Up). -/
theorem assemble_identity_spec_labels_not_solved :
    generateFaceString default_orientation
      (List.replicate 8 'R' ++ List.replicate 8 'G' ++ List.replicate 8 'W')
      (List.replicate 8 'O' ++ List.replicate 8 'B' ++ List.replicate 8 'Y')
      ≠ solvedCubeString := by decide

/-- Claim C1, amended: assembling a cube state under the identity
orientation (U,R,F | D,L,B) from camera-1 labels White×8 ++ Blue×8 ++ Red×8
and camera-2 labels Yellow×8 ++ Green×8 ++ Orange×8 produces exactly the
canonical solved-cube string
`UUUUUUUUURRRRRRRRRFFFFFFFFFDDDDDDDDDLLLLLLLLLBBBBBBBBB`
(these are the label vectors that `colorToFace` sends to the slot faces of
the identity orientation: White→Up, Blue→Right, Red→Front, Yellow→Down,
Green→Left, Orange→Back). -/
theorem assemble_identity_correct_labels_solved :
    generateFaceString default_orientation
      (List.replicate 8 'W' ++ List.replicate 8 'B' ++ List.replicate 8 'R')
      (List.replicate 8 'Y' ++ List.replicate 8 'G' ++ List.replicate 8 'O')
      = solvedCubeString := by decide

/-- Claim C2: the orientation catalog has exactly 24 pairwise-distinct
entries and contains the identity orientation, but it is NOT a subset of
the cube's rotation group: the 9th entry (index 8) is
(R,U,F | L,B,D), whose right slot holds U while its left slot holds B —
U and B are adjacent, not opposite — so only 8 of the 24 entries assign
opposite faces to opposite camera slots (entries 9–24 all swap the
left/back assignments required of a rotation). -/
theorem orientation_catalog_audit :
    generateAllOrientations.length = 24 ∧
    generateAllOrientations.Nodup ∧
    default_orientation ∈ generateAllOrientations ∧
    generateAllOrientations.getD 8 default_orientation
      = ⟨'R', 'U', 'F', 'L', 'B', 'D'⟩ ∧
    oppositeSlotsRespected (generateAllOrientations.getD 8 default_orientation)
      = false ∧
    (generateAllOrientations.filter oppositeSlotsRespected).length = 8 := by
  decide

theorem resolveLoop_fst (pre : List Char → Bool) (c1 c2 : List Char) :
    ∀ l : List CubeOrientation,
      (resolveLoop pre c1 c2 l).1 =
        (l.find? (fun o => pre (generateFaceString o c1 c2))).elim
          SolveResult.noValidOrientation
          (fun o => SolveResult.solution o (generateFaceString o c1 c2)) := by
  intro l
  induction l with
  | nil => rfl
  | cons o rest ih =>
    by_cases h : pre (generateFaceString o c1 c2)
    · simp [resolveLoop, h, List.find?_cons_of_pos]
    · rw [List.find?_cons_of_neg _ (by simpa using h)]
      simp [resolveLoop, h, ih]

theorem resolveLoop_precheck_calls_le (pre : List Char → Bool)
    (c1 c2 : List Char) :
    ∀ l : List CubeOrientation, (resolveLoop pre c1 c2 l).2.1 ≤ l.length := by
  intro l
  induction l with
  | nil => simp [resolveLoop]
  | cons o rest ih =>
    by_cases h : pre (generateFaceString o c1 c2)
    · simp [resolveLoop, h]
    · simp [resolveLoop, h]
      omega

theorem resolveLoop_precheck_calls_of_none (pre : List Char → Bool)
    (c1 c2 : List Char) :
    ∀ l : List CubeOrientation,
      l.find? (fun o => pre (generateFaceString o c1 c2)) = none →
      (resolveLoop pre c1 c2 l).2.1 = l.length := by
  intro l
  induction l with
  | nil => intro _; rfl
  | cons o rest ih =>
    intro hnone
    rw [List.find?_cons] at hnone
    by_cases h : pre (generateFaceString o c1 c2)
    · simp [h] at hnone
    · simp only [h, Bool.false_eq_true, if_neg] at hnone
      simp [resolveLoop, h, ih hnone]

theorem resolveLoop_solver_calls (pre : List Char → Bool) (c1 c2 : List Char) :
    ∀ l : List CubeOrientation,
      (resolveLoop pre c1 c2 l).2.2 =
        if (l.find? (fun o => pre (generateFaceString o c1 c2))).isSome
        then 1 else 0 := by
  intro l
  induction l with
  | nil => rfl
  | cons o rest ih =>
    by_cases h : pre (generateFaceString o c1 c2)
    · simp [resolveLoop, h, List.find?_cons_of_pos]
    · rw [List.find?_cons_of_neg _ (by simpa using h)]
      simp [resolveLoop, h, ih]

/-- Claim C3: the orientation resolver tries the 24 catalog orientations in
catalog order, assembling a state and running the structural pre-check on
each candidate; the result is determined by the FIRST candidate (in catalog
order) whose assembled state passes the pre-check, the pre-check is invoked
at most 24 times, the solver is invoked exactly once when some candidate
passes and never when all fail, and when all 24 candidates fail the
pre-check the resolver reports the no-valid-orientation failure after
exactly 24 pre-check invocations. -/
theorem resolver_first_pass_characterization (pre : List Char → Bool)
    (c1 c2 : List Char) :
    (solveWithMultipleOrientations pre c1 c2).1 =
      (generateAllOrientations.find?
          (fun o => pre (generateFaceString o c1 c2))).elim
        SolveResult.noValidOrientation
        (fun o => SolveResult.solution o (generateFaceString o c1 c2)) ∧
    (solveWithMultipleOrientations pre c1 c2).2.1 ≤ 24 ∧
    (solveWithMultipleOrientations pre c1 c2).2.2 =
      (if (generateAllOrientations.find?
            (fun o => pre (generateFaceString o c1 c2))).isSome
       then 1 else 0) ∧
    (generateAllOrientations.find? (fun o => pre (generateFaceString o c1 c2))
        = none →
      (solveWithMultipleOrientations pre c1 c2).1 =
        SolveResult.noValidOrientation ∧
      (solveWithMultipleOrientations pre c1 c2).2.1 = 24) := by
  refine ⟨resolveLoop_fst pre c1 c2 generateAllOrientations,
    resolveLoop_precheck_calls_le pre c1 c2 generateAllOrientations,
    resolveLoop_solver_calls pre c1 c2 generateAllOrientations, ?_⟩
  intro hnone
  constructor
  · rw [show (solveWithMultipleOrientations pre c1 c2).1
        = (resolveLoop pre c1 c2 generateAllOrientations).1 from rfl,
      resolveLoop_fst pre c1 c2 generateAllOrientations, hnone]
    rfl
  · exact resolveLoop_precheck_calls_of_none pre c1 c2 generateAllOrientations
      hnone

/-- Claim C3, witness: with a pre-check that rejects everything, the
resolver reports the no-valid-orientation failure after exactly 24
pre-check invocations. -/
theorem resolver_first_pass_characterization_witness :
    (solveWithMultipleOrientations (fun _ => false) [] []).1 =
      SolveResult.noValidOrientation ∧
    (solveWithMultipleOrientations (fun _ => false) [] []).2.1 = 24 :=
  (resolver_first_pass_characterization (fun _ => false) [] []).2.2.2
    (by decide)

/-- Claim C4: the cube validator returns true if and only if each of the six
canonical face letters has a count of exactly 9 (the count being
`colorToFace` of the 48 detected samples plus one hardcoded center per
face, the validator's per-face-letter breakdown `faceCounts`) and the
Unknown count is 0; moreover, on the label set that assembles to the solved
state with one White label replaced by Unknown, it returns false and the
breakdown reports an Unknown count of 1. -/
theorem validateCube_iff_counts :
    (∀ c1 c2 : List Char,
      validateCube c1 c2 = true ↔
        ((faceCounts c1 c2 'U' = 9 ∧ faceCounts c1 c2 'R' = 9 ∧
          faceCounts c1 c2 'F' = 9 ∧ faceCounts c1 c2 'D' = 9 ∧
          faceCounts c1 c2 'L' = 9 ∧ faceCounts c1 c2 'B' = 9) ∧
         faceCounts c1 c2 'N' = 0)) ∧
    (validateCube
        ('N' :: (List.replicate 7 'W' ++ List.replicate 8 'B' ++
          List.replicate 8 'R'))
        (List.replicate 8 'Y' ++ List.replicate 8 'G' ++ List.replicate 8 'O')
        = false ∧
     faceCounts
        ('N' :: (List.replicate 7 'W' ++ List.replicate 8 'B' ++
          List.replicate 8 'R'))
        (List.replicate 8 'Y' ++ List.replicate 8 'G' ++ List.replicate 8 'O')
        'N' = 1) := by
  constructor
  · intro c1 c2
    simp only [validateCube, expected_faces, List.foldl_cons, List.foldl_nil]
    split_ifs <;> simp_all
    all_goals omega
  · decide

theorem foldl_applyRule_not_covered (h s v : Nat) :
    ∀ (rules : List LutRule) (lut : Nat → Nat → Nat → Char),
      (∀ r ∈ rules, ruleCovers r h s v = false) →
      rules.foldl applyRule lut h s v = lut h s v := by
  intro rules
  induction rules with
  | nil => intro lut _; rfl
  | cons r rest ih =>
    intro lut hr
    simp only [List.foldl_cons]
    rw [ih _ (fun r' h' => hr r' (List.mem_cons_of_mem _ h'))]
    simp [applyRule, hr r (List.mem_cons_self ..)]

/-- Claim C5: when the lookup table is built from a calibration file, a Red
rule whose `h_min` exceeds `h_max` is expanded as the hue-wraparound
disjunction `H ≥ h_min OR H ≤ h_max`: every bucket `(h, s, v)` with `s` and
`v` inside the rule's ranges and `h ≥ h_min` or `h ≤ h_max` (and `h` a
legal hue, `h < 180`) classifies as Red, whatever rules preceded the Red
rule in the file, provided no later rule in the file covers that bucket
(later rules overwrite earlier ones per bucket). -/
theorem red_wraparound_rule_classifies_red (rs rest : List LutRule)
    (r : LutRule) (h s v : Nat)
    (hcolor : r.color = 'R') (hwrap : r.h_min > r.h_max)
    (hh : h < 180)
    (hhue : (h : Int) ≥ r.h_min ∨ (h : Int) ≤ r.h_max)
    (hs1 : r.s_min ≤ (s : Int)) (hs2 : (s : Int) ≤ r.s_max)
    (hv1 : r.v_min ≤ (v : Int)) (hv2 : (v : Int) ≤ r.v_max)
    (hrest : ∀ r' ∈ rest, ruleCovers r' h s v = false) :
    load_lut_from_file (some (rs ++ r :: rest)) h s v = 'R' := by
  have hcov : ruleCovers r h s v = true := by
    simp [ruleCovers, h_in_range, hcolor, hwrap, hh, hhue, hs1, hs2, hv1, hv2]
  show ((rs ++ r :: rest).foldl applyRule (fun _ _ _ => 'N')) h s v = 'R'
  rw [List.foldl_append, List.foldl_cons,
    foldl_applyRule_not_covered h s v rest _ hrest]
  simp [applyRule, hcov, hcolor]

/-- Claim C5, witness: with the file `[Red 170..8 wrap rule, Blue rule]`,
the bucket `(175, 100, 100)` (covered by neither the contiguous
interpretation of the Red rule nor the Blue rule, but by the wraparound
disjunction) classifies as Red. -/
theorem red_wraparound_rule_classifies_red_witness :
    load_lut_from_file
      (some [⟨'R', 170, 8, 80, 255, 80, 255⟩, ⟨'B', 100, 125, 80, 255, 80, 255⟩])
      175 100 100 = 'R' :=
  red_wraparound_rule_classifies_red [] [⟨'B', 100, 125, 80, 255, 80, 255⟩]
    ⟨'R', 170, 8, 80, 255, 80, 255⟩ 175 100 100
    rfl (by decide) (by decide) (by decide) (by decide) (by decide)
    (by decide) (by decide) (by decide)

/-- Claim C10: when a color calibration file opens successfully, the lookup
table starts from the all-Unknown reset, so any bucket `(h, s, v)` covered
by no rule of the file classifies as Unknown; the built-in hardcoded
thresholds (`init_lut`) are the table only in the cannot-open case. -/
theorem calibrated_lut_uncovered_is_unknown (rules : List LutRule)
    (h s v : Nat) (hcov : ∀ r ∈ rules, ruleCovers r h s v = false) :
    load_lut_from_file (some rules) h s v = 'N' ∧
    load_lut_from_file none = init_lut :=
  ⟨foldl_applyRule_not_covered h s v rules _ hcov, rfl⟩

/-- Claim C10, witness: with a file holding only the wraparound Red rule,
the bucket `(90, 200, 200)` (hue covered by no rule) classifies as Unknown,
even though the hardcoded `init_lut` would classify it as Green. -/
theorem calibrated_lut_uncovered_is_unknown_witness :
    load_lut_from_file (some [⟨'R', 170, 8, 80, 255, 80, 255⟩]) 90 200 200
        = 'N' ∧
    load_lut_from_file none = init_lut :=
  calibrated_lut_uncovered_is_unknown [⟨'R', 170, 8, 80, 255, 80, 255⟩]
    90 200 200 (by decide)

theorem foldl_set_range_getElem? (w : Nat → Char) :
    ∀ (n : Nat) (l : List Char) (j : Nat),
      ((List.range n).foldl (fun acc i => acc.set i (w i)) l)[j]? =
        if j < n ∧ j < l.length then some (w j) else l[j]? := by
  intro n
  induction n with
  | zero =>
    intro l j
    simp
  | succ n ih =>
    intro l j
    have hlen : ((List.range n).foldl (fun acc i => acc.set i (w i)) l).length
        = l.length :=
      foldl_length_invariant _ (fun st b => List.length_set ..) _ _
    rw [List.range_succ, List.foldl_append, List.foldl_cons, List.foldl_nil,
      List.getElem?_set, hlen, ih]
    by_cases hnj : n = j
    · subst hnj
      by_cases hl : n < l.length
      · rw [if_pos rfl, if_pos hl, if_pos ⟨by omega, hl⟩]
      · rw [if_pos rfl, if_neg hl, if_neg (by omega)]
        exact (List.getElem?_eq_none (by omega)).symm
    · rw [if_neg hnj]
      by_cases hj : j < n ∧ j < l.length
      · rw [if_pos hj, if_pos ⟨by omega, hj.2⟩]
      · rw [if_neg hj]
        by_cases hj2 : j < n + 1 ∧ j < l.length
        · exfalso; omega
        · rw [if_neg hj2]

theorem detect_cam_length (lut : Nat → Nat → Nat → Char) (f : FrameData)
    (points : List (Int × Int)) (prev : List Char) :
    (detect_cam lut (some f) points prev).length = prev.length := by
  apply foldl_length_invariant
  intro st b
  exact List.length_set ..

/-- Claim C6, amended claim as a theorem: if a captured camera frame is
empty, the detection function returns early leaving the label vector
exactly as it was (stale labels persist; the vector is NOT refilled with
Unknown), and being a total function it raises no exception. -/
theorem detect_cam_empty_frame_keeps_prev (lut : Nat → Nat → Nat → Char)
    (points : List (Int × Int)) (prev : List Char) :
    detect_cam lut none points prev = prev := rfl

/-- Claim C6, counterexample: on an empty frame with 24 calibrated points
and a label vector whose first entry is a stale Red from an earlier
detection, the resulting label vector still holds that Red label — it is
not the all-Unknown vector the claim requires. -/
theorem empty_frame_labels_not_reset_to_unknown :
    detect_cam (fun _ _ _ => 'N') none
        (List.replicate 24 ((0 : Int), (0 : Int)))
        ('R' :: List.replicate 23 'N') = 'R' :: List.replicate 23 'N' ∧
    ('R' :: List.replicate 23 'N') ≠ List.replicate 24 'N' := by
  constructor
  · rfl
  · decide

/-- Claim C7: for every point list and every non-empty frame, sampling
writes exactly one label per input point into the label vector (which keeps
its length, one slot per point): a point with `0 ≤ x < frame.cols` and
`0 ≤ y < frame.rows` is classified from its pixel through the lookup table,
while an out-of-bounds point yields the Unknown label `'N'` at its index;
the function is total, so no single bad point can make it throw or abort. -/
theorem detect_cam_per_point_spec (lut : Nat → Nat → Nat → Char)
    (f : FrameData) (points : List (Int × Int)) (prev : List Char)
    (hlen : prev.length = points.length) :
    (detect_cam lut (some f) points prev).length = points.length ∧
    ∀ i, i < points.length →
      (detect_cam lut (some f) points prev)[i]? =
        some (if 0 ≤ (points.getD i (0, 0)).1 ∧
                 (points.getD i (0, 0)).1 < (f.cols : Int) ∧
                 0 ≤ (points.getD i (0, 0)).2 ∧
                 (points.getD i (0, 0)).2 < (f.rows : Int)
              then find_color_lut lut
                (f.pixel (points.getD i (0, 0)).2.toNat
                  (points.getD i (0, 0)).1.toNat)
              else 'N') := by
  constructor
  · rw [detect_cam_length, hlen]
  · intro i hi
    have heq : detect_cam lut (some f) points prev =
        (List.range points.length).foldl
          (fun acc i => acc.set i
            (if 0 ≤ (points.getD i (0, 0)).1 ∧
                (points.getD i (0, 0)).1 < (f.cols : Int) ∧
                0 ≤ (points.getD i (0, 0)).2 ∧
                (points.getD i (0, 0)).2 < (f.rows : Int)
             then find_color_lut lut
               (f.pixel (points.getD i (0, 0)).2.toNat
                 (points.getD i (0, 0)).1.toNat)
             else 'N')) prev := rfl
    rw [heq, foldl_set_range_getElem?, if_pos ⟨hi, by omega⟩]

/-- Claim C7, witness: on a 64×48 frame with a constant-Green lookup table,
the in-bounds point (0,0) classifies through the table and the out-of-bounds
point (100,0) yields Unknown, with one label per point. -/
theorem detect_cam_per_point_spec_witness :
    (detect_cam (fun _ _ _ => 'G') (some ⟨64, 48, fun _ _ => (0, 0, 0)⟩)
        [((0 : Int), (0 : Int)), ((100 : Int), (0 : Int))]
        ['A', 'A']).length = 2 ∧
    (detect_cam (fun _ _ _ => 'G') (some ⟨64, 48, fun _ _ => (0, 0, 0)⟩)
        [((0 : Int), (0 : Int)), ((100 : Int), (0 : Int))]
        ['A', 'A'])[0]? = some 'G' ∧
    (detect_cam (fun _ _ _ => 'G') (some ⟨64, 48, fun _ _ => (0, 0, 0)⟩)
        [((0 : Int), (0 : Int)), ((100 : Int), (0 : Int))]
        ['A', 'A'])[1]? = some 'N' := by
  have h := detect_cam_per_point_spec (fun _ _ _ => 'G')
    ⟨64, 48, fun _ _ => (0, 0, 0)⟩
    [((0 : Int), (0 : Int)), ((100 : Int), (0 : Int))] ['A', 'A'] rfl
  refine ⟨h.1, ?_, ?_⟩
  · rw [h.2 0 (by decide)]
    decide
  · rw [h.2 1 (by decide)]
    decide

/-- Claim C8: evaluation of `load_position` at failing inputs.  The loader
performs no validation at all: an empty position file still yields 24
points, all `(0, 0)` (a failed `operator>>` stores 0), and a file with only
three integers yields `(5, 7)`, `(3, 0)` and 22 zero points — short or
malformed files are silently zero-padded to 24 points per camera, never
rejected with a diagnostic. -/
theorem load_position_pads_short_file :
    load_position [] = List.replicate 24 ((0 : Int), (0 : Int)) ∧
    load_position [5, 7, 3] =
      ((5 : Int), (7 : Int)) :: ((3 : Int), (0 : Int)) ::
        List.replicate 22 ((0 : Int), (0 : Int)) ∧
    (load_position [5, 7, 3]).length = 24 := by decide

/-- Claim C9: for every orientation in the catalog and every pair of label
vectors with arbitrary characters, the assembled cube-state string has
length exactly 54, every one of its characters is in {U,R,F,D,L,B,N}, and
the six center positions (4, 13, 22, 31, 40, 49) hold the orientation's six
assigned face letters, independent of the sampled labels. -/
theorem assembled_state_shape_invariants (ori : CubeOrientation)
    (h : ori ∈ generateAllOrientations) (c1 c2 : List Char) :
    (generateFaceString ori c1 c2).length = 54 ∧
    (∀ ch ∈ generateFaceString ori c1 c2, ch ∈ allowedStateChars) ∧
    (generateFaceString ori c1 c2)[4]? = some ori.up ∧
    (generateFaceString ori c1 c2)[13]? = some ori.right ∧
    (generateFaceString ori c1 c2)[22]? = some ori.front ∧
    (generateFaceString ori c1 c2)[31]? = some ori.down ∧
    (generateFaceString ori c1 c2)[40]? = some ori.left ∧
    (generateFaceString ori c1 c2)[49]? = some ori.back := by
  obtain ⟨hu, hr, hf, hd, hl, hb⟩ := catalog_letters h
  obtain ⟨h4, h13, h22, h31, h40, h49⟩ := generateFaceString_centers ori c1 c2
  have hsub : ∀ x ∈ expected_faces, x ∈ allowedStateChars := by decide
  refine ⟨generateFaceString_length ori c1 c2, ?_, h4, h13, h22, h31, h40, h49⟩
  intro ch hch
  rcases generateFaceString_mem ori c1 c2 ch hch with
    h' | h' | h' | h' | h' | h' | h'
  · exact h'
  · rw [h']; exact hsub _ hu
  · rw [h']; exact hsub _ hr
  · rw [h']; exact hsub _ hf
  · rw [h']; exact hsub _ hd
  · rw [h']; exact hsub _ hl
  · rw [h']; exact hsub _ hb

/-- Claim C9, witness: the shape invariants evaluated at the identity
orientation with a deliberately short, garbage camera-1 label vector. -/
theorem assembled_state_shape_invariants_witness :
    (generateFaceString default_orientation ['X'] []).length = 54 ∧
    (∀ ch ∈ generateFaceString default_orientation ['X'] [],
      ch ∈ allowedStateChars) ∧
    (generateFaceString default_orientation ['X'] [])[4]? =
      some default_orientation.up ∧
    (generateFaceString default_orientation ['X'] [])[13]? =
      some default_orientation.right ∧
    (generateFaceString default_orientation ['X'] [])[22]? =
      some default_orientation.front ∧
    (generateFaceString default_orientation ['X'] [])[31]? =
      some default_orientation.down ∧
    (generateFaceString default_orientation ['X'] [])[40]? =
      some default_orientation.left ∧
    (generateFaceString default_orientation ['X'] [])[49]? =
      some default_orientation.back :=
  assembled_state_shape_invariants default_orientation (by decide) ['X'] []

end RubiksCube
